import Mathlib

/-!
Verification of the `memory-mongo` MCP server (`src/memory-mongo/index.ts`,
the 13-tool version): a shallow embedding of the runtime-relevant parts of
the TypeScript source — JavaScript runtime values, the axios client
configuration, the `KnowledgeGraphManager` facade's request construction and
`handleError`, and the `CallToolRequestSchema` dispatcher — together with
theorems settling the specification's claims about them.
-/

set_option autoImplicit false

namespace MemoryMongo

/-- A JavaScript runtime value, as far as this program manipulates them:
`undefined`, `null`, booleans, numbers (integral — the program only ever
interpolates and truth-tests numbers), strings, arrays and plain objects. -/
inductive JsValue where
  | undefined
  | null
  | bool (b : Bool)
  | num (n : Int)
  | str (s : String)
  | arr (elems : List JsValue)
  | obj (fields : List (String × JsValue))

/-- JavaScript truthiness: `undefined`, `null`, `false`, `0` and `""` are
falsy; every object and array is truthy. -/
def truthy : JsValue → Bool
  | .undefined => false
  | .null => false
  | .bool b => b
  | .num n => n != 0
  | .str s => s != ""
  | .arr _ => true
  | .obj _ => true

mutual

/-- JavaScript `ToString` on the values above (array elements `undefined` and
`null` render as the empty string inside `Array.prototype.join`). -/
def jsToString : JsValue → String
  | .undefined => "undefined"
  | .null => "null"
  | .bool b => if b then "true" else "false"
  | .num n => toString n
  | .str s => s
  | .arr elems => String.intercalate "," (jsArrToStrings elems)
  | .obj _ => "[object Object]"

/-- Renders the elements of an array for `jsToString`. -/
def jsArrToStrings : List JsValue → List String
  | [] => []
  | .undefined :: rest => "" :: jsArrToStrings rest
  | .null :: rest => "" :: jsArrToStrings rest
  | x :: rest => jsToString x :: jsArrToStrings rest

end

/-- Property access `v.k` on a JavaScript value: the field's value when `v`
is an object that has it, `undefined` otherwise. -/
def jsGetField : JsValue → String → JsValue
  | .obj fields, k =>
    match fields.find? (fun p => p.1 = k) with
    | some p => p.2
    | none => .undefined
  | _, _ => .undefined

/-- Uppercase hexadecimal digit (used by percent-encoding). -/
def hexDigitUpper (n : Nat) : Char :=
  if n < 10 then Char.ofNat (48 + n) else Char.ofNat (55 + n)

/-- Lowercase hexadecimal digit (used by JSON string escapes). -/
def hexDigitLower (n : Nat) : Char :=
  if n < 10 then Char.ofNat (48 + n) else Char.ofNat (87 + n)

/-- The UTF-8 encoding of a character, as a list of byte values. -/
def utf8BytesOfChar (c : Char) : List Nat :=
  let n := c.toNat
  if n < 128 then [n]
  else if n < 2048 then [192 + n / 64, 128 + n % 64]
  else if n < 65536 then [224 + n / 4096, 128 + (n / 64) % 64, 128 + n % 64]
  else [240 + n / 262144, 128 + (n / 4096) % 64, 128 + (n / 64) % 64, 128 + n % 64]

/-- A percent-encoded byte, `%XX` with uppercase hex as produced by
JavaScript's `encodeURIComponent`. -/
def percentByte (b : Nat) : String :=
  String.mk ['%', hexDigitUpper (b / 16), hexDigitUpper (b % 16)]

/-- The characters `encodeURIComponent` leaves unescaped:
`A-Z a-z 0-9 - _ . ! ~ * ' ( )`. -/
def uriUnreserved (c : Char) : Bool :=
  (65 ≤ c.toNat && c.toNat ≤ 90) ||
  (97 ≤ c.toNat && c.toNat ≤ 122) ||
  (48 ≤ c.toNat && c.toNat ≤ 57) ||
  [45, 95, 46, 33, 126, 42, 39, 40, 41].contains c.toNat

/-- JavaScript's `encodeURIComponent`: unreserved characters pass through,
every other character is replaced by the percent-encoding of its UTF-8
bytes. -/
def encodeURIComponent (s : String) : String :=
  String.join (s.data.map fun c =>
    if uriUnreserved c then String.singleton c
    else String.join ((utf8BytesOfChar c).map percentByte))

/-- One escaped character of a JSON string literal, as `JSON.stringify`
produces them: the two-character escapes for `"`, `\`, backspace, form feed,
newline, carriage return and tab, `\u00xx` (lowercase hex) for the remaining
control characters, and the character itself otherwise. -/
def jsonEscapeChar (c : Char) : String :=
  if c = Char.ofNat 34 then "\\\""
  else if c = Char.ofNat 92 then "\\\\"
  else if c = Char.ofNat 8 then "\\b"
  else if c = Char.ofNat 12 then "\\f"
  else if c = Char.ofNat 10 then "\\n"
  else if c = Char.ofNat 13 then "\\r"
  else if c = Char.ofNat 9 then "\\t"
  else if c.toNat < 32 then
    "\\u00" ++ String.mk [hexDigitLower (c.toNat / 16), hexDigitLower (c.toNat % 16)]
  else String.singleton c

/-- A JSON string literal: the escaped characters between double quotes. -/
def jsonQuote (s : String) : String :=
  "\"" ++ String.join (s.data.map jsonEscapeChar) ++ "\""

/-- Two spaces of indentation per depth level, as `JSON.stringify(v, null, 2)`
uses. -/
def jsonIndent (depth : Nat) : String :=
  String.mk (List.replicate (2 * depth) ' ')

mutual

/-- `JSON.stringify(v, null, 2)` at a given depth. Object fields whose value
is `undefined` are skipped and array elements that are `undefined` render as
`null`, as in JavaScript. (At the top level JavaScript returns the non-string
`undefined` for an `undefined` input; that value never arises here, and we
render it as the text `undefined`.) -/
def jsonStringifyAux : JsValue → Nat → String
  | .undefined, _ => "undefined"
  | .null, _ => "null"
  | .bool b, _ => if b then "true" else "false"
  | .num n, _ => toString n
  | .str s, _ => jsonQuote s
  | .arr elems, depth =>
    let items := jsonArrItems elems (depth + 1)
    if items.isEmpty then "[]"
    else "[\n" ++ String.intercalate ",\n" items ++ "\n" ++ jsonIndent depth ++ "]"
  | .obj fields, depth =>
    let items := jsonObjItems fields (depth + 1)
    if items.isEmpty then "\x7b\x7d"
    else "\x7b\n" ++ String.intercalate ",\n" items ++ "\n" ++ jsonIndent depth ++ "\x7d"

/-- The rendered elements of a JSON array (`undefined` becomes `null`). -/
def jsonArrItems : List JsValue → Nat → List String
  | [], _ => []
  | .undefined :: rest, depth =>
    (jsonIndent depth ++ "null") :: jsonArrItems rest depth
  | x :: rest, depth =>
    (jsonIndent depth ++ jsonStringifyAux x depth) :: jsonArrItems rest depth

/-- The rendered fields of a JSON object (`undefined`-valued fields are
skipped). -/
def jsonObjItems : List (String × JsValue) → Nat → List String
  | [], _ => []
  | (_, .undefined) :: rest, depth => jsonObjItems rest depth
  | (k, v) :: rest, depth =>
    (jsonIndent depth ++ jsonQuote k ++ ": " ++ jsonStringifyAux v depth)
      :: jsonObjItems rest depth

end

/-- `JSON.stringify(v, null, 2)`, the pretty-printer the dispatcher applies
to every result-returning operation's result. -/
def jsonStringify2 (v : JsValue) : String :=
  jsonStringifyAux v 0

/-! ## Configuration and startup (`index.ts` lines 411-416, 488-496) -/

/-- The process environment variables the program reads: `MEMORY_API_KEY`
and `MEMORY_API_URL`, each either set to a string or unset. -/
structure Env where
  MEMORY_API_KEY : Option String
  MEMORY_API_URL : Option String

/-- `process.env.MEMORY_API_URL || 'http://localhost:3000'`: the default
base address applies when the variable is unset or set to the empty
(falsy) string. -/
def resolveBaseUrl : Option String → String
  | some u => if u = "" then "http://localhost:3000" else u
  | none => "http://localhost:3000"

/-- The immutable configuration of the axios instance created in the
`KnowledgeGraphManager` constructor: `axios.create({baseURL, headers})` with
the `Authorization: Bearer <key>` and `Content-Type: application/json`
headers. These headers are attached to every request the instance issues. -/
structure ApiConfig where
  baseURL : String
  headers : List (String × String)

/-- The `KnowledgeGraphManager` constructor's `axios.create` call. -/
def mkApi (apiKey baseUrl : String) : ApiConfig :=
  { baseURL := baseUrl
    headers := [("Authorization", "Bearer " ++ apiKey),
                ("Content-Type", "application/json")] }

/-- Module initialization: read `MEMORY_API_KEY`, and
`if (!API_KEY) throw new Error('MEMORY_API_KEY environment variable is
required')` — the throw fires when the variable is unset or set to the
falsy empty string, and it precedes the construction of the
`KnowledgeGraphManager` and the `Server`, so on the error branch no client
or server object exists. On success the constructed client configuration
is the process-lifetime state. -/
def startup (env : Env) : Except String ApiConfig :=
  match env.MEMORY_API_KEY with
  | none => .error "MEMORY_API_KEY environment variable is required"
  | some k =>
    if k = "" then .error "MEMORY_API_KEY environment variable is required"
    else .ok (mkApi k (resolveBaseUrl env.MEMORY_API_URL))

/-! ## The facade's error normalization (`handleError`, lines 498-507) -/

/-- A JavaScript value thrown into `handleError`'s scrutiny:
an axios error (with the response body when a response arrived), a plain
`Error` (with its message), or any non-`Error` value. -/
inductive JsThrow where
  | axiosError (message : String) (responseData : Option JsValue)
  | plainError (message : String)
  | nonError

/-- `KnowledgeGraphManager.handleError`. It always throws an `Error`; this
function computes that error's message. For an axios error it evaluates
`(error.response?.data)?.error || error.message` — the server-supplied
`error` field when it is truthy (coerced to a string by the `Error`
constructor), else the axios message; a plain `Error` is rethrown with its
own message; anything else becomes `'An unknown error occurred'`. -/
def handleError : JsThrow → String
  | .axiosError message responseData =>
    let e := match responseData with
      | some d => jsGetField d "error"
      | none => .undefined
    if truthy e then jsToString e else message
  | .plainError message => message
  | .nonError => "An unknown error occurred"

/-! ## The facade's request construction (class methods, lines 509-627) -/

/-- One HTTP request as the axios instance issues it: method, URL relative
to the configured base, the instance headers, and the JSON body when one is
sent. -/
structure Request where
  method : String
  url : String
  headers : List (String × String)
  body : Option JsValue

/-- `KnowledgeGraphManager.findPath`'s URL construction:
`maxDepth ? base&maxDepth=… : base` — the parameter is appended only when
`maxDepth` is truthy, so `undefined` (omitted) and `0` both omit it. -/
def findPathUrl (f t : String) (maxDepth : JsValue) : String :=
  if truthy maxDepth then
    "/api/graph/path?from=" ++ encodeURIComponent f ++ "&to=" ++ encodeURIComponent t
      ++ "&maxDepth=" ++ jsToString maxDepth
  else
    "/api/graph/path?from=" ++ encodeURIComponent f ++ "&to=" ++ encodeURIComponent t

/-- One invocation of a `KnowledgeGraphManager` operation, carrying the
runtime values the dispatcher extracted from the argument bag. (The
TypeScript `as` casts are erased at runtime, so any `JsValue` can arrive in
any position.) -/
inductive FacadeCall where
  | checkHealth
  | createEntities (entities : JsValue)
  | createRelations (relations : JsValue)
  | addObservations (observations : JsValue)
  | deleteEntities (entityNames : JsValue)
  | deleteObservations (deletions : JsValue)
  | deleteRelations (relations : JsValue)
  | readGraph
  | searchNodes (query : JsValue)
  | openNodes (names : JsValue)
  | getPatterns (category : JsValue)
  | getTemporalGraph (startDate endDate : JsValue)
  | findPath (f t maxDepth : JsValue)

/-- The single network request each facade operation issues, built from the
instance configuration exactly as the class methods do. `searchNodes`,
`getTemporalGraph` and `findPath` pass their string arguments through
`encodeURIComponent` (coercing to string first); `getPatterns` interpolates
`category` raw and omits the query when it is falsy. -/
def buildRequest (cfg : ApiConfig) : FacadeCall → Request
  | .checkHealth =>
    { method := "GET", url := "/health", headers := cfg.headers, body := none }
  | .createEntities entities =>
    { method := "POST", url := "/api/entities", headers := cfg.headers
      body := some (.obj [("entities", entities)]) }
  | .createRelations relations =>
    { method := "POST", url := "/api/relations", headers := cfg.headers
      body := some (.obj [("relations", relations)]) }
  | .addObservations observations =>
    { method := "POST", url := "/api/observations", headers := cfg.headers
      body := some (.obj [("observations", observations)]) }
  | .deleteEntities entityNames =>
    { method := "DELETE", url := "/api/entities", headers := cfg.headers
      body := some (.obj [("entityNames", entityNames)]) }
  | .deleteObservations deletions =>
    { method := "DELETE", url := "/api/observations", headers := cfg.headers
      body := some (.obj [("deletions", deletions)]) }
  | .deleteRelations relations =>
    { method := "DELETE", url := "/api/relations", headers := cfg.headers
      body := some (.obj [("relations", relations)]) }
  | .readGraph =>
    { method := "GET", url := "/api/graph", headers := cfg.headers, body := none }
  | .searchNodes query =>
    { method := "GET"
      url := "/api/search?query=" ++ encodeURIComponent (jsToString query)
      headers := cfg.headers, body := none }
  | .openNodes names =>
    { method := "POST", url := "/api/nodes", headers := cfg.headers
      body := some (.obj [("names", names)]) }
  | .getPatterns category =>
    { method := "GET"
      url := if truthy category then "/api/patterns?category=" ++ jsToString category
             else "/api/patterns"
      headers := cfg.headers, body := none }
  | .getTemporalGraph startDate endDate =>
    { method := "GET"
      url := "/api/graph/temporal?startDate=" ++ encodeURIComponent (jsToString startDate)
        ++ "&endDate=" ++ encodeURIComponent (jsToString endDate)
      headers := cfg.headers, body := none }
  | .findPath f t maxDepth =>
    { method := "GET", url := findPathUrl (jsToString f) (jsToString t) maxDepth
      headers := cfg.headers, body := none }

/-! ## The dispatcher (`CallToolRequestSchema` handler, lines 907-960) -/

/-- The argument bag of a tool call: the fields of the `arguments` JSON
object. -/
def ArgBag := List (String × JsValue)

/-- Field extraction `args.field` on the argument bag: the field's value
when present, `undefined` otherwise — it never fails. -/
def getField (a : ArgBag) (k : String) : JsValue :=
  match a.find? (fun p => p.1 = k) with
  | some p => p.2
  | none => .undefined

/-- The thirteen tool names registered in the `ListToolsRequestSchema`
handler and matched by the dispatcher's `switch`, in registry order. -/
def toolNames : List String :=
  ["check_health", "create_entities", "create_relations", "add_observations",
   "delete_entities", "delete_observations", "delete_relations", "read_graph",
   "search_nodes", "open_nodes", "get_patterns", "get_temporal_graph",
   "find_path"]

/-- The facade operation the dispatcher's `switch` invokes for a tool name,
with the argument values it extracts from the bag; `none` for an
unregistered name (the `default` branch invokes nothing). -/
def dispatchFacadeCall (name : String) (a : ArgBag) : Option FacadeCall :=
  match name with
  | "check_health" => some .checkHealth
  | "create_entities" => some (.createEntities (getField a "entities"))
  | "create_relations" => some (.createRelations (getField a "relations"))
  | "add_observations" => some (.addObservations (getField a "observations"))
  | "delete_entities" => some (.deleteEntities (getField a "entityNames"))
  | "delete_observations" => some (.deleteObservations (getField a "deletions"))
  | "delete_relations" => some (.deleteRelations (getField a "relations"))
  | "read_graph" => some .readGraph
  | "search_nodes" => some (.searchNodes (getField a "query"))
  | "open_nodes" => some (.openNodes (getField a "names"))
  | "get_patterns" => some (.getPatterns (getField a "category"))
  | "get_temporal_graph" =>
    some (.getTemporalGraph (getField a "startDate") (getField a "endDate"))
  | "find_path" =>
    some (.findPath (getField a "from") (getField a "to") (getField a "maxDepth"))
  | _ => none

/-- A value caught by the dispatcher's `catch`: an `Error` instance (with
its message) or any other thrown value. -/
inductive CaughtValue where
  | error (message : String)
  | notError
deriving DecidableEq

/-- The response envelope the handler returns. The `content` array always
holds exactly one `{type: "text", text}` item, so only its text is kept;
`isError` is `none` when the field is absent from the returned object. -/
structure Envelope where
  text : String
  isError : Option Bool
deriving DecidableEq

/-- What a handler invocation does: return an envelope, or let a thrown
`Error` (with this message) escape to the surrounding protocol layer. -/
inductive HandlerOutcome where
  | raised (message : String)
  | reply (e : Envelope)
deriving DecidableEq

/-- `true` iff the handler returned an envelope rather than throwing. -/
def HandlerOutcome.isReply : HandlerOutcome → Bool
  | .raised _ => false
  | .reply _ => true

/-- `true` iff the facade call returned a value rather than throwing. -/
def facadeIsOk : Except CaughtValue JsValue → Bool
  | .ok _ => true
  | .error _ => false

/-- The body of the dispatcher's `try` block: the `switch` on the tool name.
`facade` stands for the outcome of the one awaited facade call the selected
branch makes — its result value on success, or the value it threw. The ten
result-returning branches render the result with
`JSON.stringify(…, null, 2)`; the three delete branches return fixed texts;
the `default` branch throws `Error('Unknown tool: ' + name)`. Successful
returns carry no `isError` field. -/
def callToolBody (name : String) (facade : Except CaughtValue JsValue) :
    Except CaughtValue Envelope :=
  match name with
  | "check_health" => facade.map fun v => ⟨jsonStringify2 v, none⟩
  | "create_entities" => facade.map fun v => ⟨jsonStringify2 v, none⟩
  | "create_relations" => facade.map fun v => ⟨jsonStringify2 v, none⟩
  | "add_observations" => facade.map fun v => ⟨jsonStringify2 v, none⟩
  | "delete_entities" => facade.map fun _ => ⟨"Entities deleted successfully", none⟩
  | "delete_observations" => facade.map fun _ => ⟨"Observations deleted successfully", none⟩
  | "delete_relations" => facade.map fun _ => ⟨"Relations deleted successfully", none⟩
  | "read_graph" => facade.map fun v => ⟨jsonStringify2 v, none⟩
  | "search_nodes" => facade.map fun v => ⟨jsonStringify2 v, none⟩
  | "open_nodes" => facade.map fun v => ⟨jsonStringify2 v, none⟩
  | "get_patterns" => facade.map fun v => ⟨jsonStringify2 v, none⟩
  | "get_temporal_graph" => facade.map fun v => ⟨jsonStringify2 v, none⟩
  | "find_path" => facade.map fun v => ⟨jsonStringify2 v, none⟩
  | _ => .error (.error ("Unknown tool: " ++ name))

/-- The `CallToolRequestSchema` handler. The absent-arguments check
`if (!args) throw new Error(...)` precedes the `try` block, so that throw
escapes the handler (`raised`). With arguments present, the `try` body runs
and the `catch` converts any thrown value into an error envelope:
`'Error: ' + message` for an `Error` instance, the fixed unknown-error text
otherwise, both with `isError: true`. -/
def callToolHandler (name : String) (args : Option ArgBag)
    (facade : Except CaughtValue JsValue) : HandlerOutcome :=
  match args with
  | none => .raised ("No arguments provided for tool: " ++ name)
  | some _ =>
    match callToolBody name facade with
    | .ok e => .reply e
    | .error (.error m) => .reply ⟨"Error: " ++ m, some true⟩
    | .error .notError => .reply ⟨"An unknown error occurred", some true⟩

/-! ## Helper lemmas about the dispatcher -/

/-- A successful `try` body always produced an envelope without an
`isError` field, and only from a successful facade call. -/
theorem callToolBody_ok (name : String) (facade : Except CaughtValue JsValue)
    (e : Envelope) (h : callToolBody name facade = .ok e) :
    e.isError = none ∧ facadeIsOk facade = true := by
  unfold callToolBody at h
  split at h <;>
    first
      | (cases facade with
          | ok v =>
            refine ⟨?_, rfl⟩
            simp only [Except.map] at h
            cases h
            rfl
          | error c => simp only [Except.map] at h; cases h)
      | cases h

/-- For a registered tool name, a successful facade call makes the `try`
body succeed with an envelope that has no `isError` field. -/
theorem callToolBody_ok_of_mem (name : String) (v : JsValue)
    (h : name ∈ toolNames) :
    ∃ t, callToolBody name (.ok v) = .ok ⟨t, none⟩ := by
  simp only [toolNames, List.mem_cons, List.not_mem_nil, or_false] at h
  rcases h with rfl|rfl|rfl|rfl|rfl|rfl|rfl|rfl|rfl|rfl|rfl|rfl|rfl
  all_goals exact ⟨_, rfl⟩

/-- For a registered tool name, a throwing facade call propagates the thrown
value to the `catch`. -/
theorem callToolBody_error_of_mem (name : String) (c : CaughtValue)
    (h : name ∈ toolNames) :
    callToolBody name (.error c) = .error c := by
  simp only [toolNames, List.mem_cons, List.not_mem_nil, or_false] at h
  rcases h with rfl|rfl|rfl|rfl|rfl|rfl|rfl|rfl|rfl|rfl|rfl|rfl|rfl
  all_goals rfl

/-- For an unregistered tool name, the `try` body throws the unknown-tool
`Error` without touching the facade. -/
theorem callToolBody_unknown (name : String)
    (facade : Except CaughtValue JsValue) (h : name ∉ toolNames) :
    callToolBody name facade = .error (.error ("Unknown tool: " ++ name)) := by
  unfold callToolBody
  split <;> first
    | rfl
    | (exact absurd (by simp [toolNames]) h)

/-- Shape of every error envelope the handler returns: `isError` is `true`,
and the text is either `'Error: '` followed by the caught message or the
fixed unknown-error text. -/
theorem handler_error_reply_shape (name : String) (args : ArgBag)
    (facade : Except CaughtValue JsValue) (t : String) (b : Bool)
    (h : callToolHandler name (some args) facade = .reply ⟨t, some b⟩) :
    b = true ∧ ("Error: ".data <+: t.data ∨ t = "An unknown error occurred") := by
  simp only [callToolHandler] at h
  rcases hb : callToolBody name facade with c | e
  case _ =>
    rw [hb] at h
    cases c with
    | error msg =>
      simp only [HandlerOutcome.reply.injEq, Envelope.mk.injEq,
        Option.some.injEq] at h
      refine ⟨h.2.symm, Or.inl ?_⟩
      rw [← h.1]
      exact List.prefix_append _ _
    | notError =>
      simp only [HandlerOutcome.reply.injEq, Envelope.mk.injEq,
        Option.some.injEq] at h
      exact ⟨h.2.symm, Or.inr h.1.symm⟩
  case _ =>
    rw [hb] at h
    have he := (callToolBody_ok name facade e hb).1
    simp only [HandlerOutcome.reply.injEq] at h
    rw [h] at he
    cases he

/-! ## Claim theorems -/

/-- C1 (amended): when the argument object is entirely absent, the handler's
check precedes the `try` block, so it throws an `Error` naming the offending
tool out of the dispatcher (to be handled by the surrounding protocol
layer); the dispatcher itself does not render an `isError` envelope for this
case. -/
theorem C1_absent_args_raises (name : String)
    (facade : Except CaughtValue JsValue) :
    callToolHandler name none facade
      = .raised ("No arguments provided for tool: " ++ name) := rfl

/-- C1 counterexample to the claim as stated: a call with an absent argument
object does not yield an `isError:true` envelope — the handler raises the
failure out of the dispatcher. -/
theorem C1_absent_args_counterexample :
    (callToolHandler "read_graph" none (.ok .null)).isReply = false ∧
    callToolHandler "read_graph" none (.ok .null)
      = .raised "No arguments provided for tool: read_graph" := ⟨rfl, rfl⟩

/-- C2 (amended): `handleError` yields exactly one message for every
failure: a response body whose `error` field is a non-empty string is used
verbatim; a body whose `error` field is falsy (e.g. empty or absent), or no
body at all, falls back to the transport library's message; a plain `Error`
keeps its message; a non-`Error` value becomes `'An unknown error
occurred'`. -/
theorem C2_handleError_message (m m2 m3 e s : String) (body body2 : JsValue)
    (hbody : jsGetField body "error" = .str s) (hs : s ≠ "")
    (hbody2 : truthy (jsGetField body2 "error") = false) :
    handleError (.axiosError m (some body)) = s
    ∧ handleError (.axiosError m2 (some body2)) = m2
    ∧ handleError (.axiosError m3 none) = m3
    ∧ handleError (.plainError e) = e
    ∧ handleError .nonError = "An unknown error occurred" := by
  refine ⟨?_, ?_, rfl, rfl, rfl⟩
  · simp [handleError, hbody, truthy, jsToString, hs]
  · simp [handleError, hbody2]

/-- C2 witness. -/
theorem C2_handleError_message_witness :
    handleError (.axiosError "Request failed with status code 404"
      (some (.obj [("success", .bool false), ("error", .str "No path found")])))
      = "No path found"
    ∧ handleError (.axiosError "Request failed with status code 500"
        (some (.obj [("success", .bool false)])))
      = "Request failed with status code 500"
    ∧ handleError (.axiosError "Network Error" none) = "Network Error"
    ∧ handleError (.plainError "boom") = "boom"
    ∧ handleError .nonError = "An unknown error occurred" :=
  C2_handleError_message "Request failed with status code 404"
    "Request failed with status code 500" "Network Error" "boom"
    "No path found"
    (.obj [("success", .bool false), ("error", .str "No path found")])
    (.obj [("success", .bool false)])
    rfl (by decide) rfl

/-- C2 counterexample to the claim as stated: a response body containing the
`error` string `""` is not surfaced verbatim — the empty string is falsy, so
the transport message is used instead. -/
theorem C2_handleError_counterexample :
    jsGetField (.obj [("success", .bool false), ("error", .str "")]) "error"
      = .str ""
    ∧ handleError (.axiosError "timeout of 0ms exceeded"
        (some (.obj [("success", .bool false), ("error", .str "")])))
      = "timeout of 0ms exceeded"
    ∧ "timeout of 0ms exceeded" ≠ "" := ⟨rfl, rfl, by decide⟩

/-- C3: an unregistered tool name (with arguments present) yields an
`isError:true` envelope whose text names the unrecognized tool, and the
handler returns it normally rather than throwing. -/
theorem C3_unknown_tool (name : String) (args : ArgBag)
    (facade : Except CaughtValue JsValue) (h : name ∉ toolNames) :
    callToolHandler name (some args) facade
      = .reply ⟨"Error: Unknown tool: " ++ name, some true⟩ := by
  have hassoc : "Error: Unknown tool: " ++ name
      = "Error: " ++ ("Unknown tool: " ++ name) := by
    rw [← String.append_assoc]
    rfl
  simp only [callToolHandler, callToolBody_unknown name facade h, hassoc]

/-- C3 witness. -/
theorem C3_unknown_tool_witness :
    "nonexistent_tool" ∉ toolNames ∧
    callToolHandler "nonexistent_tool" (some []) (.ok .null)
      = .reply ⟨"Error: Unknown tool: nonexistent_tool", some true⟩ :=
  ⟨by decide, C3_unknown_tool "nonexistent_tool" [] (.ok .null) (by decide)⟩

/-- C4: a registered tool invocation whose facade call succeeds returns an
envelope with a single text item and no `isError` field, the text being the
result pretty-printed with `JSON.stringify(…, null, 2)` for the
result-returning tools and the fixed confirmation text for the three delete
tools; and whenever the handler returns an envelope that carries an
`isError` field, that field is `true` and the facade call did not
succeed. -/
theorem C4_success_envelope (name : String) (args : ArgBag) (v : JsValue)
    (facade : Except CaughtValue JsValue) (t : String) (b : Bool)
    (hname : name ∈ toolNames)
    (herr : callToolHandler name (some args) facade = .reply ⟨t, some b⟩) :
    callToolHandler name (some args) (.ok v) =
      .reply ⟨if name = "delete_entities" then "Entities deleted successfully"
              else if name = "delete_observations" then "Observations deleted successfully"
              else if name = "delete_relations" then "Relations deleted successfully"
              else jsonStringify2 v, none⟩
    ∧ b = true ∧ facadeIsOk facade = false := by
  have hshape : callToolHandler name (some args) (.ok v) =
      .reply ⟨if name = "delete_entities" then "Entities deleted successfully"
              else if name = "delete_observations" then "Observations deleted successfully"
              else if name = "delete_relations" then "Relations deleted successfully"
              else jsonStringify2 v, none⟩ := by
    have h := hname
    simp only [toolNames, List.mem_cons, List.not_mem_nil, or_false] at h
    rcases h with rfl|rfl|rfl|rfl|rfl|rfl|rfl|rfl|rfl|rfl|rfl|rfl|rfl <;> rfl
  refine ⟨hshape, ?_, ?_⟩
  · exact (handler_error_reply_shape name args facade t b herr).1
  · cases facade with
    | ok w =>
      obtain ⟨t', ht'⟩ := callToolBody_ok_of_mem name w hname
      simp only [callToolHandler, ht'] at herr
      simp at herr
    | error c => rfl

/-- C4 witness. -/
theorem C4_success_envelope_witness :
    "read_graph" ∈ toolNames
    ∧ (callToolHandler "read_graph" (some []) (.error (.error "x"))
        = .reply ⟨"Error: x", some true⟩)
    ∧ (callToolHandler "read_graph" (some []) (.ok .null) =
        .reply ⟨if "read_graph" = "delete_entities" then "Entities deleted successfully"
                else if "read_graph" = "delete_observations" then "Observations deleted successfully"
                else if "read_graph" = "delete_relations" then "Relations deleted successfully"
                else jsonStringify2 .null, none⟩
      ∧ true = true ∧ facadeIsOk (.error (.error "x")) = false) :=
  ⟨by decide, rfl,
    C4_success_envelope "read_graph" [] .null (.error (.error "x"))
      "Error: x" true (by decide) rfl⟩

/-- C5 (amended): `findPath` omits the `maxDepth` query parameter when the
argument is omitted (so the service-side default depth of 3 applies), and
appends `&maxDepth=<value>` when a nonzero (truthy) value is supplied; a
falsy value such as `0` is treated exactly like an omitted one. -/
theorem C5_findPath_url (f t : String) (n : Int) (hn : n ≠ 0) :
    findPathUrl f t .undefined
      = "/api/graph/path?from=" ++ encodeURIComponent f
        ++ "&to=" ++ encodeURIComponent t
    ∧ findPathUrl f t (.num n)
      = "/api/graph/path?from=" ++ encodeURIComponent f
        ++ "&to=" ++ encodeURIComponent t ++ "&maxDepth=" ++ toString n := by
  refine ⟨rfl, ?_⟩
  simp [findPathUrl, truthy, hn, jsToString]

/-- C5 witness. -/
theorem C5_findPath_url_witness :
    findPathUrl "A" "B" .undefined
      = "/api/graph/path?from=" ++ encodeURIComponent "A"
        ++ "&to=" ++ encodeURIComponent "B"
    ∧ findPathUrl "A" "B" (.num 3)
      = "/api/graph/path?from=" ++ encodeURIComponent "A"
        ++ "&to=" ++ encodeURIComponent "B" ++ "&maxDepth=" ++ toString (3 : Int) :=
  C5_findPath_url "A" "B" 3 (by decide)

/-- C5 counterexample to the claim as stated: `maxDepth` supplied as `0`
does not put a `maxDepth` parameter in the URL — the request is identical to
the omitted-`maxDepth` one. -/
theorem C5_findPath_url_counterexample :
    findPathUrl "A" "B" (.num 0) = "/api/graph/path?from=A&to=B"
    ∧ findPathUrl "A" "B" (.num 0) = findPathUrl "A" "B" .undefined
    ∧ ¬ ("&maxDepth=".data <:+: (findPathUrl "A" "B" (.num 0)).data) :=
  ⟨by decide, rfl, by decide⟩

/-- C6 (amended): startup fails fatally, before any client or server object
is constructed, when `MEMORY_API_KEY` is unset — and also when it is set to
the empty (falsy) string; with a non-empty credential startup proceeds to
the configured client. -/
theorem C6_startup (u : Option String) (k : String) (hk : k ≠ "") :
    startup ⟨none, u⟩ = .error "MEMORY_API_KEY environment variable is required"
    ∧ startup ⟨some k, u⟩ = .ok (mkApi k (resolveBaseUrl u)) :=
  ⟨rfl, by simp [startup, hk]⟩

/-- C6 witness. -/
theorem C6_startup_witness :
    startup ⟨none, none⟩ = .error "MEMORY_API_KEY environment variable is required"
    ∧ startup ⟨some "secret-key", none⟩
      = .ok (mkApi "secret-key" (resolveBaseUrl none)) :=
  C6_startup none "secret-key" (by decide)

/-- C6 counterexample to the claim as stated: with `MEMORY_API_KEY` present
but set to the empty string, startup still fails — the check tests JavaScript
falsiness, not mere presence. -/
theorem C6_startup_counterexample :
    startup ⟨some "", none⟩
      = .error "MEMORY_API_KEY environment variable is required" := rfl

/-- C7: every facade operation's request carries exactly the two headers
fixed at client construction — one `Authorization: Bearer <credential>` and
one `Content-Type: application/json` — and the base address defaults to
`http://localhost:3000` when no override is configured. -/
theorem C7_auth_headers (k : String) (u : Option String) (c : FacadeCall) :
    (buildRequest (mkApi k (resolveBaseUrl u)) c).headers
      = [("Authorization", "Bearer " ++ k), ("Content-Type", "application/json")]
    ∧ ((buildRequest (mkApi k (resolveBaseUrl u)) c).headers.filter
        (fun p => p.1 == "Authorization")).length = 1
    ∧ resolveBaseUrl none = "http://localhost:3000" := by
  refine ⟨?_, ?_, rfl⟩
  · cases c <;> rfl
  · cases c <;> rfl

/-- C8: with the argument object present, a registered tool call never
crashes the dispatcher regardless of the bag's contents — field extraction
is total (`undefined` for absent fields), exactly one facade operation is
selected and invoked with the forwarded values, the handler always returns
an envelope, and a facade failure surfaces as an ordinary `isError:true`
operation-failure envelope. -/
theorem C8_malformed_args_contained (name : String) (args : ArgBag)
    (facade : Except CaughtValue JsValue) (m : String)
    (hname : name ∈ toolNames) :
    (dispatchFacadeCall name args).isSome = true
    ∧ (callToolHandler name (some args) facade).isReply = true
    ∧ callToolHandler name (some args) (.error (.error m))
        = .reply ⟨"Error: " ++ m, some true⟩ := by
  simp only [toolNames, List.mem_cons, List.not_mem_nil, or_false] at hname
  rcases hname with rfl|rfl|rfl|rfl|rfl|rfl|rfl|rfl|rfl|rfl|rfl|rfl|rfl <;>
    exact ⟨rfl, by cases facade with
                    | ok w => rfl
                    | error c => cases c <;> rfl, rfl⟩

/-- C8 witness (at a malformed bag: `search_nodes` without `query`). -/
theorem C8_malformed_args_contained_witness :
    "search_nodes" ∈ toolNames
    ∧ ((dispatchFacadeCall "search_nodes" [("wrong_field", .str "x")]).isSome = true
      ∧ (callToolHandler "search_nodes" (some [("wrong_field", .str "x")])
          (.ok .null)).isReply = true
      ∧ callToolHandler "search_nodes" (some [("wrong_field", .str "x")])
          (.error (.error "Invalid input"))
        = .reply ⟨"Error: Invalid input", some true⟩) :=
  ⟨by decide,
    C8_malformed_args_contained "search_nodes" [("wrong_field", .str "x")]
      (.ok .null) "Invalid input" (by decide)⟩

/-- C9: a falsy `maxDepth` — in particular an explicit `0` — produces
exactly the request an omitted `maxDepth` produces: same method, URL,
headers and body, with no `maxDepth` query parameter. -/
theorem C9_falsy_maxDepth (cfg : ApiConfig) (f t d : JsValue)
    (hd : truthy d = false) :
    buildRequest cfg (.findPath f t d) = buildRequest cfg (.findPath f t .undefined)
    ∧ findPathUrl (jsToString f) (jsToString t) d
        = findPathUrl (jsToString f) (jsToString t) .undefined := by
  have hurl : ∀ a b : String, findPathUrl a b d = findPathUrl a b .undefined := by
    intro a b
    unfold findPathUrl
    rw [hd]
    rfl
  exact ⟨by simp [buildRequest, hurl], hurl _ _⟩

/-- C9 witness: `findPath("A","B",0)` and `findPath("A","B")` issue the same
request. -/
theorem C9_falsy_maxDepth_witness :
    buildRequest (mkApi "key" "http://localhost:3000")
        (.findPath (.str "A") (.str "B") (.num 0))
      = buildRequest (mkApi "key" "http://localhost:3000")
        (.findPath (.str "A") (.str "B") .undefined)
    ∧ findPathUrl (jsToString (.str "A")) (jsToString (.str "B")) (.num 0)
        = findPathUrl (jsToString (.str "A")) (jsToString (.str "B")) .undefined :=
  C9_falsy_maxDepth (mkApi "key" "http://localhost:3000")
    (.str "A") (.str "B") (.num 0) rfl

/-- C10: every error envelope the dispatcher produces has `isError:true`
and text either `'Error: '` prefixed to the caught `Error`'s message (so a
server-supplied message reaches the host prefixed, not verbatim) or exactly
`'An unknown error occurred'` for a non-`Error` failure; in particular a
facade `Error` with message `m` yields text `'Error: ' ++ m` and a
non-`Error` failure yields the fixed text. -/
theorem C10_error_envelope_text (name name3 : String) (args args3 : ArgBag)
    (m t : String) (b : Bool) (facade3 : Except CaughtValue JsValue)
    (hname : name ∈ toolNames)
    (h3 : callToolHandler name3 (some args3) facade3 = .reply ⟨t, some b⟩) :
    callToolHandler name (some args) (.error (.error m))
      = .reply ⟨"Error: " ++ m, some true⟩
    ∧ callToolHandler name (some args) (.error .notError)
      = .reply ⟨"An unknown error occurred", some true⟩
    ∧ b = true
    ∧ ("Error: ".data <+: t.data ∨ t = "An unknown error occurred") := by
  obtain ⟨hb, hshape⟩ := handler_error_reply_shape name3 args3 facade3 t b h3
  refine ⟨?_, ?_, hb, hshape⟩
  all_goals
    simp only [toolNames, List.mem_cons, List.not_mem_nil, or_false] at hname
  all_goals
    rcases hname with rfl|rfl|rfl|rfl|rfl|rfl|rfl|rfl|rfl|rfl|rfl|rfl|rfl <;> rfl

/-- C10 witness. -/
theorem C10_error_envelope_text_witness :
    "read_graph" ∈ toolNames
    ∧ (callToolHandler "create_entities" (some []) (.error .notError)
        = .reply ⟨"An unknown error occurred", some true⟩)
    ∧ (callToolHandler "read_graph" (some []) (.error (.error "db down"))
          = .reply ⟨"Error: db down", some true⟩
      ∧ callToolHandler "read_graph" (some []) (.error .notError)
          = .reply ⟨"An unknown error occurred", some true⟩
      ∧ true = true
      ∧ ("Error: ".data <+: ("An unknown error occurred" : String).data
          ∨ ("An unknown error occurred" : String) = "An unknown error occurred")) :=
  ⟨by decide, rfl,
    C10_error_envelope_text "read_graph" "create_entities" [] []
      "db down" "An unknown error occurred" true (.error .notError)
      (by decide) rfl⟩

end MemoryMongo
